import Mathlib

/-!
Verification of the Inspire Home Automation API client
(`custom_components/inspire/api.py`).

The client is shallowly embedded: XML documents are a tree type, Python
dicts are insertion-ordered association lists, the network is a script
of responses consumed in order (an exhausted script models a transport
failure, which the client classifies as a Connection error), and each
client operation is a pure function from a run state (session key,
remaining script, trace of sent requests, warning flag) to a new run
state and an `Except` result mirroring the Python exception channel.
Temperatures are exact rationals; see the rounding section for why this
agrees with the source's floating-point computation on the inputs the
claims quantify over.
-/

namespace Inspire

/- An XML element: tag, optional text, and child elements, mirroring
`xml.etree.ElementTree.Element` (attributes are never read by the
client and are omitted).  The children are a specialised list type so
that the descendant searches below are structurally recursive. -/
mutual
inductive XML where
  | node (tag : String) (text : Option String) (children : XMLForest)
inductive XMLForest where
  | nil
  | cons (head : XML) (tail : XMLForest)
end

def ofList : List XML → XMLForest
  | [] => .nil
  | x :: xs => .cons x (ofList xs)

def XMLForest.toList : XMLForest → List XML
  | .nil => []
  | .cons x xs => x :: xs.toList

/-- Element constructor taking an ordinary list of children. -/
def xmlE (tag : String) (text : Option String) (children : List XML) : XML :=
  .node tag text (ofList children)

def XML.tag : XML → String
  | .node t _ _ => t

def XML.text : XML → Option String
  | .node _ tx _ => tx

def XML.children : XML → List XML
  | .node _ _ cs => cs.toList

/-- `elem.find("t")`: first direct child with tag `t`. -/
def XML.findChild (x : XML) (t : String) : Option XML :=
  x.children.find? (fun c => c.tag == t)

/-- `elem.findall("t")`: all direct children with tag `t`, in order. -/
def XML.findAll (x : XML) (t : String) : List XML :=
  x.children.filter (fun c => c.tag == t)

/- The search of ElementTree `find(".//t")`: first element with the
given tag among an element (`findDescX`) or a forest (`findDescF`) and
all descendants, in document (preorder) order. -/
mutual
def findDescX (t : String) : XML → Option XML
  | XML.node tg tx cs =>
    if tg = t then some (XML.node tg tx cs) else findDescF t cs
def findDescF (t : String) : XMLForest → Option XML
  | .nil => none
  | .cons x rest =>
    match findDescX t x with
    | some e => some e
    | none => findDescF t rest
end

/-- `root.find(".//t")`: first proper descendant of `root` with tag
`t` (the root itself is not a candidate). -/
def XML.findDesc (x : XML) (t : String) : Option XML :=
  match x with
  | .node _ _ cs => findDescF t cs

/- The search of ElementTree `find(".//t1/t2")`: the first `t1`
element in document order that has a `t2` child contributes its first
`t2` child. -/
mutual
def findPathX (t1 t2 : String) : XML → Option XML
  | XML.node tg tx cs =>
    if tg = t1 then
      match (XML.node tg tx cs).findChild t2 with
      | some c => some c
      | none => findPathF t1 t2 cs
    else findPathF t1 t2 cs
def findPathF (t1 t2 : String) : XMLForest → Option XML
  | .nil => none
  | .cons x rest =>
    match findPathX t1 t2 x with
    | some e => some e
    | none => findPathF t1 t2 rest
end

/-- `root.find(".//t1/t2")` over proper descendants of the root. -/
def XML.findPath (x : XML) (t1 t2 : String) : Option XML :=
  match x with
  | .node _ _ cs => findPathF t1 t2 cs

/-! ### Python string primitives -/

/-- Python `str.strip()`: drop leading and trailing whitespace. -/
def pyStrip (s : String) : String :=
  ⟨((s.data.dropWhile Char.isWhitespace).reverse.dropWhile Char.isWhitespace).reverse⟩

/-- Decimal digit accumulation for `pyInt`; fails on the first
non-digit character. -/
def parseDigits : List Char → ℕ → Option ℕ
  | [], acc => some acc
  | c :: cs, acc =>
    if c.isDigit then parseDigits cs (acc * 10 + (c.toNat - 48)) else none

/-- Python `int(s)`: optional surrounding whitespace, optional sign,
one or more decimal digits; anything else fails (in the source an
unparsable code string raises an uncaught `ValueError`; the claims only
involve canonical decimal code strings). -/
def pyInt (s : String) : Option ℤ :=
  match (pyStrip s).data with
  | [] => none
  | '-' :: cs => if cs.isEmpty then none else (parseDigits cs 0).map (fun n => -(n : ℤ))
  | '+' :: cs => if cs.isEmpty then none else (parseDigits cs 0).map (fun n => (n : ℤ))
  | cs => (parseDigits cs 0).map (fun n => (n : ℤ))

/-- Python truthiness of an optional string (`None` and `""` are
falsy). -/
def textTruthy : Option String → Bool
  | none => false
  | some s => s ≠ ""

/-- `child.text is not None and child.text.strip()`: non-`None` text
that is non-empty after stripping whitespace. -/
def textTruthyStripped (x : XML) : Bool :=
  match x.text with
  | none => false
  | some s => pyStrip s ≠ ""

/-! ### Status classification (`_request`, api.py lines 150-177) -/

/-- Status code extraction of `_request` (api.py lines 151-157):
`root.find(".//status")`, then direct child `code`, then
`int(code_elem.text)` when the text is truthy. -/
def statusCodeOf (root : XML) : Option Int :=
  match root.findDesc "status" with
  | none => none
  | some st =>
    match st.findChild "code" with
    | none => none
    | some c =>
      match c.text with
      | none => none
      | some s => if s = "" then none else pyInt s

/-- Status code extraction used by `check_connection` and `get_log`:
`root.find(".//status/code")` followed by the same truthy/int test. -/
def statusCodePath (root : XML) : Option Int :=
  match root.findPath "status" "code" with
  | none => none
  | some c =>
    match c.text with
    | none => none
    | some s => if s = "" then none else pyInt s

/-- Outcome of the status-code classification in `_request`. -/
inductive StatusClass where
  | raiseAuth (clearKey : Bool)
  | raiseDevice
  | raiseRateLimit
  | passOk
  | passWarn
deriving DecidableEq

/-- The classification chain of `_request` (api.py lines 160-177), in
source order: codes 1,2 → auth; 3 → auth with session-key clearing;
4,5 → device; 6,8 → device; 11 → rate limit; 23 → pass silently
(no-log-data); 13,14 → pass (success markers); anything else → pass
with a logged warning. -/
def classifyCode (code : Int) : StatusClass :=
  if code = 1 ∨ code = 2 then .raiseAuth false
  else if code = 3 then .raiseAuth true
  else if code = 4 ∨ code = 5 then .raiseDevice
  else if code = 6 ∨ code = 8 then .raiseDevice
  else if code = 11 then .raiseRateLimit
  else if code = 23 then .passOk
  else if code = 13 ∨ code = 14 then .passOk
  else .passWarn

/-- Classification of a whole response document: a missing `status`
node, missing `code` child, or falsy code text attaches no diagnostic
and the document passes through. -/
def respStatus (resp : XML) : StatusClass :=
  match statusCodeOf resp with
  | none => .passOk
  | some code => classifyCode code

/-- The Python exception taxonomy (plus `validation` for the
synchronous `ValueError`s raised before any network activity). -/
inductive ApiErr where
  | auth
  | device
  | rateLimit
  | connection
  | validation
  | api
deriving DecidableEq

/-- One network exchange of `_request`, given the held session key and
the server's response: returns the new session key (code 3 clears it),
whether an unknown-code warning was logged, and either the parsed root
or the classified error. -/
def requestStep (key : Option String) (resp : XML) :
    Option String × Bool × Except ApiErr XML :=
  match respStatus resp with
  | .raiseAuth clear => (if clear then none else key, false, .error .auth)
  | .raiseDevice => (key, false, .error .device)
  | .raiseRateLimit => (key, false, .error .rateLimit)
  | .passOk => (key, false, .ok resp)
  | .passWarn => (key, true, .ok resp)

/-- An outbound request, reduced to the fields the specification
observes.  The constant credential parameters (`apikey`, `username`,
`password`) are the same on every request and are elided. -/
structure SentReq where
  action : String
  key : Option String
  deviceId : Option String
  messageType : Option String
  value : Option String
deriving DecidableEq

/-- Client run state: held session key, the remaining scripted server
responses, the trace of requests sent so far, and whether any
unknown-code warning has been logged. -/
structure RunState where
  key : Option String
  script : List XML
  sent : List SentReq
  warned : Bool

/-- Issue one request: append it to the trace, consume the next
scripted response and classify it; an exhausted script models a
transport failure (`aiohttp.ClientError` → Connection error). -/
def doRequest (rs : RunState) (req : SentReq) : RunState × Except ApiErr XML :=
  match rs.script with
  | [] => ({ rs with sent := rs.sent ++ [req] }, .error .connection)
  | resp :: rest =>
    let (k2, w, res) := requestStep rs.key resp
    ({ key := k2, script := rest, sent := rs.sent ++ [req], warned := rs.warned || w }, res)

/-- The request sent by `connect` (credentials elided, no session
key). -/
def connectReq : SentReq :=
  { action := "connect", key := none, deviceId := none, messageType := none, value := none }

/-- `connect` (api.py lines 185-211): POST the auth request; on
success extract the `.//key` text as the new session key; a missing or
falsy key text is a fatal API error ("no session key returned"). -/
def connectOp (rs : RunState) : RunState × Except ApiErr String :=
  let (rs1, res) := doRequest rs connectReq
  match res with
  | .error e => (rs1, .error e)
  | .ok root =>
    match root.findDesc "key" with
    | none => (rs1, .error .api)
    | some ke =>
      match ke.text with
      | none => (rs1, .error .api)
      | some s =>
        if s = "" then (rs1, .error .api)
        else ({ rs1 with key := some s }, .ok s)

/-- `_ensure_connected` (api.py lines 213-216):
`if not self._session_key: await self.connect()` (Python truthiness: a
missing and an empty key both trigger `connect`). -/
def ensureConnected (rs : RunState) : RunState × Except ApiErr Unit :=
  if textTruthy rs.key then (rs, .ok ())
  else
    let (rs1, r) := connectOp rs
    (rs1, r.map fun _ => ())

/-- The shared authenticated-operation skeleton repeated inline by
every device/control operation except `check_connection` (and shared
via `_post_message` by the control messages): ensure connected, issue
the request built from the current session key; on an Authentication
error, `connect` once, rebuild the request with the replaced key, and
re-issue exactly once, propagating whatever the second attempt
produces. -/
def runAuthedOp (mk : Option String → SentReq) (rs : RunState) :
    RunState × Except ApiErr XML :=
  let (rs1, c) := ensureConnected rs
  match c with
  | .error e => (rs1, .error e)
  | .ok _ =>
    let (rs2, r1) := doRequest rs1 (mk rs1.key)
    match r1 with
    | .error .auth =>
      let (rs3, c2) := connectOp rs2
      match c2 with
      | .error e => (rs3, .error e)
      | .ok _ => doRequest rs3 (mk rs3.key)
    | r => (rs2, r)

/-! ### Python dicts as insertion-ordered association lists -/

/-- `m.get(k)`: the value bound to the first (and, by construction,
only) entry for `k`, if any. -/
def lookupD {α : Type} : List (String × α) → String → Option α
  | [], _ => none
  | p :: m, q => if p.1 = q then some p.2 else lookupD m q

/-- `m[k] = v` on a Python dict: overwrite in place when the key
exists (keeping its original position), otherwise append. -/
def upsert {α : Type} (m : List (String × α)) (k : String) (v : α) :
    List (String × α) :=
  if (lookupD m k).isSome then
    m.map (fun p => if p.1 = k then (k, v) else p)
  else m ++ [(k, v)]

/-! ### Response parsing / data shaping -/

/-- One device of `get_devices`: `{child.tag: child.text}` over the
children of a `device` element (text may be `None`). -/
def deviceDict (d : XML) : List (String × Option String) :=
  d.children.foldl (fun m c => upsert m c.tag c.text) []

/-- `get_devices` result shaping (api.py lines 245-254). -/
def getDevicesParse (root : XML) : List (List (String × Option String)) :=
  match root.findDesc "devices" with
  | none => []
  | some dv => (dv.findAll "device").map deviceDict

/-- One step of the `get_device_information` flatten walk
(api.py lines 291-297): a child with truthy stripped text maps its tag
to its (unstripped) text; otherwise a child with children has each
grandchild with non-`None` text merged into the top-level record. -/
def deviceInfoStep (info : List (String × String)) (child : XML) :
    List (String × String) :=
  if textTruthyStripped child then upsert info child.tag (child.text.getD "")
  else if child.children.length > 0 then
    child.children.foldl
      (fun m sub =>
        match sub.text with
        | some t => upsert m sub.tag t
        | none => m)
      info
  else info

/-- `get_device_information` result shaping (api.py lines 287-298). -/
def getDeviceInformationParse (root : XML) : List (String × String) :=
  match root.findDesc "Device_Information" with
  | none => []
  | some di => di.children.foldl deviceInfoStep []

/-- A summary value: scalar string, or ordered sequence of flat
mappings. -/
inductive SumVal where
  | scalar (s : String)
  | seq (items : List (List (String × String)))
deriving DecidableEq

/-- `{sub.tag: (sub.text or "") for sub in item}`. -/
def summaryItemDict (item : XML) : List (String × String) :=
  item.children.foldl (fun m sub => upsert m sub.tag (sub.text.getD "")) []

/-- One step of the `get_summary` shaping walk (api.py lines 357-364):
truthy stripped text → scalar; otherwise a child with children → the
ordered list of per-sub-element flat mappings. -/
def summaryStep (s : List (String × SumVal)) (child : XML) :
    List (String × SumVal) :=
  if textTruthyStripped child then upsert s child.tag (.scalar (child.text.getD ""))
  else if child.children.length > 0 then
    upsert s child.tag (.seq (child.children.map summaryItemDict))
  else s

/-- `get_summary` result shaping (api.py lines 354-365). -/
def getSummaryParse (root : XML) : List (String × SumVal) :=
  match root.findDesc "summary" with
  | none => []
  | some se => se.children.foldl summaryStep []

/-- `a or b` on ElementTree elements: an element with no children is
falsy (Python `Element.__bool__` is `len(children) > 0`). -/
def elemOr (a b : Option XML) : Option XML :=
  match a with
  | some e => if e.children.length > 0 then some e else b
  | none => b

/-- `xs or ys` on lists: an empty list is falsy. -/
def listOr (xs ys : List XML) : List XML :=
  if xs.length > 0 then xs else ys

/-- `get_log` entry shaping (api.py lines 443-454): locate the `log`
(or `Log`) element via Python `or`-truthiness, take its `entry`
children, or its `item` children, or all children; keep items that are
tagged `entry`/`item`, have truthy text, or have children; each kept
item with a non-empty record contributes `{child.tag: child.text}`
over its children with non-`None` text. -/
def getLogParse (root : XML) : List (List (String × String)) :=
  match elemOr (root.findDesc "log") (root.findDesc "Log") with
  | none => []
  | some le =>
    (listOr (le.findAll "entry") (listOr (le.findAll "item") le.children)).foldl
      (fun acc item =>
        if item.tag == "entry" || item.tag == "item" || textTruthy item.text
            || item.children.length > 0 then
          let recd := item.children.foldl
            (fun m c =>
              match c.text with
              | some t => upsert m c.tag t
              | none => m)
            []
          if recd.length > 0 then acc ++ [recd] else acc
        else acc)
      []

/-! ### Client operations -/

/-- The GET request of `get_devices`. -/
def getDevicesReq (key : Option String) : SentReq :=
  { action := "get_devices", key := key, deviceId := none,
    messageType := none, value := none }

/-- `get_devices` (api.py lines 218-254). -/
def getDevices (rs : RunState) :
    RunState × Except ApiErr (List (List (String × Option String))) :=
  let (rs1, r) := runAuthedOp getDevicesReq rs
  (rs1, r.map getDevicesParse)

/-- The GET request of `get_device_information`. -/
def getDeviceInformationReq (deviceId : String) (key : Option String) : SentReq :=
  { action := "get_device_information", key := key, deviceId := some deviceId,
    messageType := none, value := none }

/-- `get_device_information` (api.py lines 256-298). -/
def getDeviceInformation (deviceId : String) (rs : RunState) :
    RunState × Except ApiErr (List (String × String)) :=
  let (rs1, r) := runAuthedOp (getDeviceInformationReq deviceId) rs
  (rs1, r.map getDeviceInformationParse)

/-- The GET request of `get_summary`. -/
def getSummaryReq (key : Option String) : SentReq :=
  { action := "get_summary", key := key, deviceId := none,
    messageType := none, value := none }

/-- `get_summary` (api.py lines 329-365): auth errors get the single
reconnect-and-retry; every other classified error propagates. -/
def getSummary (rs : RunState) :
    RunState × Except ApiErr (List (String × SumVal)) :=
  let (rs1, r) := runAuthedOp getSummaryReq rs
  (rs1, r.map getSummaryParse)

/-- The GET request of `check_connection`. -/
def checkConnectionReq (deviceId : String) (key : Option String) : SentReq :=
  { action := "check_connection", key := key, deviceId := some deviceId,
    messageType := none, value := none }

/-- `check_connection` (api.py lines 300-327): ensure connected
(errors there propagate), issue the request once (no auth retry); an
Authentication or Device error from the request yields `false`; on a
parsed response the result is whether `.//status/code` equals 13;
Rate-limit and Connection errors propagate. -/
def checkConnection (deviceId : String) (rs : RunState) :
    RunState × Except ApiErr Bool :=
  let (rs1, c) := ensureConnected rs
  match c with
  | .error e => (rs1, .error e)
  | .ok _ =>
    let (rs2, r) := doRequest rs1 (checkConnectionReq deviceId rs1.key)
    match r with
    | .ok root =>
      (rs2, .ok (match statusCodePath root with
        | some code => code == 13
        | none => false))
    | .error .auth => (rs2, .ok false)
    | .error .device => (rs2, .ok false)
    | .error e => (rs2, .error e)

/-- The GET request of `get_log`. -/
def getLogReq (deviceId : String) (key : Option String) : SentReq :=
  { action := "get_log", key := key, deviceId := some deviceId,
    messageType := none, value := none }

/-- `get_log` (api.py lines 409-454): authenticated GET with the
single auth retry; a response whose `.//status/code` is 23 (no log
data) yields the empty sequence; otherwise entries are shaped by
`getLogParse`. -/
def getLog (deviceId : String) (rs : RunState) :
    RunState × Except ApiErr (List (List (String × String))) :=
  let (rs1, r) := runAuthedOp (getLogReq deviceId) rs
  match r with
  | .error e => (rs1, .error e)
  | .ok root =>
    if statusCodePath root = some 23 then (rs1, .ok [])
    else (rs1, .ok (getLogParse root))

/-! ### Temperature rounding and the set operations

Temperatures are modelled as exact rationals.  Python's `round` is
round-half-to-even on the exact binary value of its argument; every tie
case of `round(t * 2)` for `t` in the valid range `[10, 30]` is a
quarter, and quarters of this magnitude are exactly representable as
doubles, so the rational model agrees with the floating-point
computation on all inputs the claims quantify over. -/

/-- Python `round(q)`: nearest integer, ties to the even integer. -/
def pyRound (q : ℚ) : ℤ :=
  if q - ⌊q⌋ < 1/2 then ⌊q⌋
  else if q - ⌊q⌋ > 1/2 then ⌊q⌋ + 1
  else if ⌊q⌋ % 2 = 0 then ⌊q⌋ else ⌊q⌋ + 1

/-- `round(temperature * 2) / 2` (api.py lines 472 and 595). -/
def roundToHalf (t : ℚ) : ℚ :=
  (pyRound (t * 2) : ℚ) / 2

/-- Python `str(float)` restricted to the non-negative multiples of
0.5 that `roundToHalf` produces on the valid range: `10.0`, `10.5`,
... -/
def formatHalf (q : ℚ) : String :=
  if q = (⌊q⌋ : ℚ) then toString ⌊q⌋ ++ ".0" else toString ⌊q⌋ ++ ".5"

/-- The POST body built by `set_temperature` (api.py lines 476-483),
with the temperature already validated and rounded. -/
def setTemperatureData (deviceId : String) (key : Option String) (t : ℚ) : SentReq :=
  { action := "send_message", key := key, deviceId := some deviceId,
    messageType := some "set_set_point", value := some (formatHalf (roundToHalf t)) }

/-- `set_temperature` (api.py lines 456-491): the range check and the
rounding happen synchronously before `_ensure_connected`; the POST
then follows the shared auth-retry skeleton. -/
def setTemperature (deviceId : String) (t : ℚ) (rs : RunState) :
    RunState × Except ApiErr Unit :=
  if ¬(10 ≤ t ∧ t ≤ 30) then (rs, .error .validation)
  else
    let (rs1, r) := runAuthedOp (fun k => setTemperatureData deviceId k t) rs
    (rs1, r.map fun _ => ())

/-- The POST body built by `set_function` (api.py lines 510-517). -/
def setFunctionData (deviceId : String) (key : Option String) (f : ℤ) : SentReq :=
  { action := "send_message", key := key, deviceId := some deviceId,
    messageType := some "set_function", value := some (toString f) }

/-- `function in (1, 2, 3, 4, 5, 6)` (api.py line 505). -/
def validFunction (f : ℤ) : Prop :=
  f = 1 ∨ f = 2 ∨ f = 3 ∨ f = 4 ∨ f = 5 ∨ f = 6

instance (f : ℤ) : Decidable (validFunction f) := by
  unfold validFunction
  infer_instance

/-- `set_function` (api.py lines 493-525). -/
def setFunction (deviceId : String) (f : ℤ) (rs : RunState) :
    RunState × Except ApiErr Unit :=
  if ¬validFunction f then (rs, .error .validation)
  else
    let (rs1, r) := runAuthedOp (fun k => setFunctionData deviceId k f) rs
    (rs1, r.map fun _ => ())

/-- The comma-joined value string of `set_program_time`
(api.py line 596), with the temperature already rounded:
`f"{program},{day},{period},{time_str},{temperature}"`. -/
def setProgramTimeValue (program day period : ℤ) (timeStr : String) (t : ℚ) : String :=
  toString program ++ "," ++ toString day ++ "," ++ toString period ++ ","
    ++ timeStr ++ "," ++ formatHalf (roundToHalf t)

/-- The POST body of `set_program_time`, sent through
`_post_message`. -/
def setProgramTimeData (deviceId : String) (key : Option String)
    (program day period : ℤ) (timeStr : String) (t : ℚ) : SentReq :=
  { action := "send_message", key := key, deviceId := some deviceId,
    messageType := some "set_program_time",
    value := some (setProgramTimeValue program day period timeStr t) }

/-- `set_program_time` (api.py lines 569-597): same synchronous range
check and rounding as `set_temperature`, then `_post_message`, which
follows the shared auth-retry skeleton. -/
def setProgramTime (deviceId : String) (program day period : ℤ)
    (timeStr : String) (t : ℚ) (rs : RunState) :
    RunState × Except ApiErr Unit :=
  if ¬(10 ≤ t ∧ t ≤ 30) then (rs, .error .validation)
  else
    let (rs1, r) := runAuthedOp
      (fun k => setProgramTimeData deviceId k program day period timeStr t) rs
    (rs1, r.map fun _ => ())

/-! ### Rate limiting

`_enforce_rate_limit` (api.py lines 87-93) reads the monotone
event-loop clock, sleeps for the remaining delta when less than 1.0
second has passed since the recorded last-request time, and re-reads
the clock into `_last_request_time` just before the request is sent.
`sleepSlack ≥ 0` models that `asyncio.sleep` suspends for at least the
requested duration; `readDelay ≥ 0` models the monotone clock
advancing between the sleep's end and the re-read. -/

/-- The new `_last_request_time` (the instant the request begins) as a
function of the previously recorded time `last` and the clock value
`now` at entry. -/
def enforceRateLimit (last now sleepSlack readDelay : ℚ) : ℚ :=
  (if now - last < 1 then now + (1 - (now - last)) + sleepSlack else now) + readDelay

/-! ### Specification-side definitions

These follow the specification's words rather than the source, and are
compared with the source-derived definitions in the claim theorems. -/

/-- The pairs a single child of the detail-information element emits
during the flatten walk, per the specification: a leaf child with
non-empty (stripped) text emits its own tag→text pair; a child without
such text but with children emits its grandchildren's tag→text pairs
(for grandchildren whose text is present); other children emit
nothing. -/
def childPairs (child : XML) : List (String × String) :=
  if textTruthyStripped child then [(child.tag, child.text.getD "")]
  else if child.children.length > 0 then
    child.children.filterMap (fun sub => sub.text.map (fun t => (sub.tag, t)))
  else []

/-- All pairs emitted by the document-order flatten walk over the
detail-information element's children. -/
def deviceInfoPairs (root : XML) : List (String × String) :=
  match root.findDesc "Device_Information" with
  | none => []
  | some di => (di.children.map childPairs).flatten

/-- The typed summary entry a single child of the `summary` element
emits, per the specification: non-empty (stripped) text → scalar
string; otherwise a child with a sequence of sub-elements → the
ordered list of one flat mapping per sub-element, in document order;
other children emit nothing. -/
def summaryPair (child : XML) : Option (String × SumVal) :=
  if textTruthyStripped child then some (child.tag, .scalar (child.text.getD ""))
  else if child.children.length > 0 then
    some (child.tag, .seq (child.children.map summaryItemDict))
  else none

/-- All typed entries emitted by the document-order walk over the
`summary` element's children. -/
def summaryPairs (root : XML) : List (String × SumVal) :=
  match root.findDesc "summary" with
  | none => []
  | some se => se.children.filterMap summaryPair

/-- Later-write-wins lookup over a walk's emitted pairs: the value of
the last pair carrying the key, if any. -/
def lastWins {α : Type} (ps : List (String × α)) (q : String) : Option α :=
  ps.foldl (fun acc p => if p.1 = q then some p.2 else acc) none

/-- The claim's rounding: nearest 0.5 with ties away from zero. -/
def roundHalfAway (q : ℚ) : ℤ :=
  if 0 ≤ q then ⌊q + 1/2⌋ else -⌊-q + 1/2⌋

/-- Nearest multiple of 0.5, ties away from zero. -/
def roundAwayToHalf (t : ℚ) : ℚ :=
  (roundHalfAway (t * 2) : ℚ) / 2

/-! ### Association-list (Python dict) lemmas -/

/-- Left-biased choice on options. -/
def orO {α : Type} : Option α → Option α → Option α
  | some v, _ => some v
  | none, b => b

theorem upsert_cons_ne {α : Type} (hd : String × α) (tl : List (String × α))
    (k : String) (v : α) (h : hd.1 ≠ k) :
    upsert (hd :: tl) k v = hd :: upsert tl k v := by
  unfold upsert
  rw [lookupD, if_neg h]
  by_cases hs : (lookupD tl k).isSome
  · simp [hs, if_neg h]
  · simp [hs]

theorem upsert_cons_eq {α : Type} (hd : String × α) (tl : List (String × α))
    (k : String) (v : α) (h : hd.1 = k) :
    upsert (hd :: tl) k v =
      (k, v) :: tl.map (fun p => if p.1 = k then (k, v) else p) := by
  unfold upsert
  rw [lookupD, if_pos h]
  simp [h]

theorem lookupD_map_ne {α : Type} (tl : List (String × α)) (k q : String) (v : α)
    (h : q ≠ k) :
    lookupD (tl.map fun p => if p.1 = k then (k, v) else p) q = lookupD tl q := by
  induction tl with
  | nil => rfl
  | cons p tl ih =>
    by_cases hp : p.1 = k
    · have hkq : ¬(k = q) := fun hh => h hh.symm
      have hpq : ¬(p.1 = q) := by rw [hp]; exact hkq
      simp only [List.map_cons, if_pos hp, lookupD, if_neg hkq, if_neg hpq, ih]
    · simp only [List.map_cons, if_neg hp, lookupD, ih]

/-- Lookup after a Python dict write: the written key reads back the
new value, every other key is untouched. -/
theorem lookupD_upsert {α : Type} (m : List (String × α)) (k : String) (v : α)
    (q : String) :
    lookupD (upsert m k v) q = if k = q then some v else lookupD m q := by
  induction m with
  | nil =>
    by_cases h : k = q <;> simp [upsert, lookupD, h]
  | cons hd tl ih =>
    by_cases hhd : hd.1 = k
    · rw [upsert_cons_eq hd tl k v hhd]
      by_cases hq : k = q
      · subst hq; simp [lookupD]
      · have hpq : ¬(hd.1 = q) := by rw [hhd]; exact hq
        simp only [lookupD, if_neg hq, if_neg hpq,
          lookupD_map_ne tl k q v (fun hqk => hq hqk.symm)]
    · rw [upsert_cons_ne hd tl k v hhd]
      simp only [lookupD, ih]
      by_cases hq2 : hd.1 = q <;> by_cases hkq : k = q
      · exact absurd (hq2.trans hkq.symm) hhd
      · simp [hq2, hkq]
      · simp [hq2, hkq]
      · simp [hq2, hkq]

theorem lastWins_foldl_acc {α : Type} (ps : List (String × α)) (q : String)
    (a : Option α) :
    ps.foldl (fun acc p => if p.1 = q then some p.2 else acc) a
      = orO (ps.foldl (fun acc p => if p.1 = q then some p.2 else acc) none) a := by
  induction ps generalizing a with
  | nil => rfl
  | cons p tl ih =>
    rw [List.foldl_cons, List.foldl_cons,
      ih (if p.1 = q then some p.2 else a), ih (if p.1 = q then some p.2 else none)]
    cases tl.foldl (fun acc p => if p.1 = q then some p.2 else acc) none with
    | some v => rfl
    | none =>
      by_cases hp : p.1 = q
      · rw [if_pos hp, if_pos hp]; rfl
      · rw [if_neg hp, if_neg hp]; rfl

/-- Lookup through a fold of Python dict writes: the last write for
the key wins; a key never written falls through to the initial
dict. -/
theorem lookupD_foldl_upsert {α : Type} (ps : List (String × α))
    (m0 : List (String × α)) (q : String) :
    lookupD (ps.foldl (fun m p => upsert m p.1 p.2) m0) q
      = orO (lastWins ps q) (lookupD m0 q) := by
  induction ps generalizing m0 with
  | nil => rfl
  | cons p tl ih =>
    rw [List.foldl_cons, ih, lookupD_upsert]
    have hlw : lastWins (p :: tl) q
        = orO (lastWins tl q) (if p.1 = q then some p.2 else none) := by
      unfold lastWins
      rw [List.foldl_cons, lastWins_foldl_acc]
    rw [hlw]
    cases lastWins tl q with
    | some v => rfl
    | none =>
      by_cases hp : p.1 = q
      · rw [if_pos hp, if_pos hp]; rfl
      · rw [if_neg hp, if_neg hp]; rfl

theorem foldl_flatten {P M : Type} (f : M → P → M) (css : List (List P)) (m0 : M) :
    css.flatten.foldl f m0 = css.foldl (fun m cs => cs.foldl f m) m0 := by
  induction css generalizing m0 with
  | nil => rfl
  | cons cs tl ih => simp only [List.flatten_cons, List.foldl_append, List.foldl_cons, ih]

theorem foldl_upsert_filterMap_text (l : List XML) (info : List (String × String)) :
    l.foldl
      (fun m sub =>
        match sub.text with
        | some t => upsert m sub.tag t
        | none => m)
      info
      = (l.filterMap (fun sub => sub.text.map (fun t => (sub.tag, t)))).foldl
          (fun m p => upsert m p.1 p.2) info := by
  induction l generalizing info with
  | nil => rfl
  | cons sub tl ih =>
    cases hs : sub.text with
    | none =>
      rw [List.foldl_cons, List.filterMap_cons]
      simp only [hs]
      exact ih info
    | some t =>
      rw [List.foldl_cons, List.filterMap_cons]
      simp only [hs, Option.map_some, List.foldl_cons]
      exact ih _

theorem deviceInfoStep_eq_childPairs (info : List (String × String)) (child : XML) :
    deviceInfoStep info child
      = (childPairs child).foldl (fun m p => upsert m p.1 p.2) info := by
  unfold deviceInfoStep childPairs
  by_cases h1 : textTruthyStripped child
  · simp [h1]
  · simp only [h1, Bool.false_eq_true, if_false]
    by_cases h2 : child.children.length > 0
    · simp only [h2, if_true]
      exact foldl_upsert_filterMap_text child.children info
    · simp [h2]

theorem summaryStep_eq_summaryPair (s : List (String × SumVal)) (child : XML) :
    summaryStep s child
      = match summaryPair child with
        | some p => upsert s p.1 p.2
        | none => s := by
  unfold summaryStep summaryPair
  by_cases h1 : textTruthyStripped child
  · simp [h1]
  · by_cases h2 : child.children.length > 0 <;> simp [h1, h2]

instance {ε α : Type} [DecidableEq ε] [DecidableEq α] : DecidableEq (Except ε α) :=
  fun x y =>
    match x, y with
    | .ok a, .ok b =>
      if h : a = b then isTrue (by rw [h]) else isFalse (fun hh => by cases hh; exact h rfl)
    | .ok _, .error _ => isFalse (fun h => by cases h)
    | .error _, .ok _ => isFalse (fun h => by cases h)
    | .error a, .error b =>
      if h : a = b then isTrue (by rw [h]) else isFalse (fun hh => by cases hh; exact h rfl)

/-! ### Concrete response documents used in closed theorems -/

/-- A response carrying only a status envelope with the given code. -/
def statusDoc (c : String) : XML :=
  xmlE "response" none
    [xmlE "status" none [xmlE "code" (some c) [], xmlE "message" (some "msg") []]]

/-- A successful `connect` response granting session key `K2`. -/
def connectOkDoc : XML :=
  xmlE "response" none [xmlE "key" (some "K2") []]

/-! ### Rounding lemmas -/

theorem pyRound_abs_le (q : ℚ) : |q - (pyRound q : ℚ)| ≤ 1/2 := by
  have h0 : ((⌊q⌋ : ℤ) : ℚ) ≤ q := Int.floor_le q
  have h1 : q < (⌊q⌋ : ℤ) + 1 := Int.lt_floor_add_one q
  unfold pyRound
  split_ifs with hlt hgt heven
  · rw [abs_of_nonneg (by linarith)]
    linarith
  · push_cast
    rw [abs_of_nonpos (by linarith)]
    push_cast at hlt ⊢
    linarith
  · have he : q - (⌊q⌋ : ℚ) = 1/2 := by linarith
    rw [he, abs_of_nonneg (by norm_num : (0:ℚ) ≤ 1/2)]
  · have he : q - (⌊q⌋ : ℚ) = 1/2 := by linarith
    push_cast
    rw [abs_of_nonpos (by linarith)]
    linarith

theorem pyRound_even_of_tie (q : ℚ) (h : |q - (pyRound q : ℚ)| = 1/2) :
    pyRound q % 2 = 0 := by
  have h0 : ((⌊q⌋ : ℤ) : ℚ) ≤ q := Int.floor_le q
  have h1 : q < (⌊q⌋ : ℤ) + 1 := Int.lt_floor_add_one q
  unfold pyRound at h ⊢
  split_ifs at h ⊢ with hlt hgt heven
  · rw [abs_of_nonneg (by linarith)] at h
    linarith
  · push_cast at h
    rw [abs_of_nonpos (by linarith)] at h
    push_cast at hgt
    linarith
  · exact heven
  · omega

theorem roundToHalf_as_half (t : ℚ) : ∃ n : ℤ, roundToHalf t = (n : ℚ) / 2 :=
  ⟨pyRound (t * 2), rfl⟩

theorem roundToHalf_close (t : ℚ) : |t - roundToHalf t| ≤ 1/4 := by
  have h := pyRound_abs_le (t * 2)
  unfold roundToHalf
  have he : t - (pyRound (t * 2) : ℚ) / 2 = (t * 2 - (pyRound (t * 2) : ℚ)) / 2 := by
    ring
  rw [he, abs_div, abs_of_nonneg (by norm_num : (0:ℚ) ≤ 2)]
  linarith

theorem roundToHalf_tie_int (t : ℚ) (h : |t - roundToHalf t| = 1/4) :
    ∃ n : ℤ, roundToHalf t = (n : ℚ) := by
  have htie : |t * 2 - (pyRound (t * 2) : ℚ)| = 1/2 := by
    unfold roundToHalf at h
    have he : t - (pyRound (t * 2) : ℚ) / 2 = (t * 2 - (pyRound (t * 2) : ℚ)) / 2 := by
      ring
    rw [he, abs_div, abs_of_nonneg (by norm_num : (0:ℚ) ≤ 2)] at h
    linarith
  have heven := pyRound_even_of_tie (t * 2) htie
  obtain ⟨m, hm⟩ : ∃ m : ℤ, pyRound (t * 2) = 2 * m := ⟨pyRound (t * 2) / 2, by omega⟩
  refine ⟨m, ?_⟩
  unfold roundToHalf
  rw [hm]
  push_cast
  ring

/-! ### Request-trace helper lemmas -/

theorem doRequest_sent (rs : RunState) (req : SentReq) :
    (doRequest rs req).1.sent = rs.sent ++ [req] := by
  obtain ⟨k, sc, st, w⟩ := rs
  cases sc <;> rfl

theorem connectOp_sent (rs : RunState) :
    (connectOp rs).1.sent = rs.sent ++ [connectReq] := by
  cases hd : doRequest rs connectReq with
  | mk rs1 res =>
    have hsent : rs1.sent = rs.sent ++ [connectReq] := by
      rw [← doRequest_sent rs connectReq, hd]
    unfold connectOp
    rw [hd]
    cases res with
    | error e => simpa using hsent
    | ok root =>
      cases hfd : root.findDesc "key" with
      | none => simp [hfd, hsent]
      | some ke =>
        cases hket : ke.text with
        | none => simp [hfd, hket, hsent]
        | some s => by_cases hs : s = "" <;> simp [hfd, hket, hs, hsent]

/-- Every authenticated operation on a client that already holds a
truthy session key sends, first, the request built from that key. -/
theorem runAuthedOp_sent_head (mkR : Option String → SentReq) (rs : RunState)
    (h : textTruthy rs.key = true) :
    ∃ extra, (runAuthedOp mkR rs).1.sent = rs.sent ++ mkR rs.key :: extra := by
  unfold runAuthedOp ensureConnected
  rw [h]
  simp only [if_true]
  cases hd : doRequest rs (mkR rs.key) with
  | mk rs2 r1 =>
    have h2 : rs2.sent = rs.sent ++ [mkR rs.key] := by
      rw [← doRequest_sent rs (mkR rs.key), hd]
    cases r1 with
    | ok root => exact ⟨[], by simpa using h2⟩
    | error e =>
      cases e with
      | auth =>
        cases hc : connectOp rs2 with
        | mk rs3 c2 =>
          have h3 : rs3.sent = rs2.sent ++ [connectReq] := by
            rw [← connectOp_sent rs2, hc]
          cases c2 with
          | error e2 => exact ⟨[connectReq], by simp [h3, h2]⟩
          | ok k2 =>
            refine ⟨[connectReq, mkR rs3.key], ?_⟩
            simp only [doRequest_sent, h3, h2]
            simp
      | device => exact ⟨[], by simpa using h2⟩
      | rateLimit => exact ⟨[], by simpa using h2⟩
      | connection => exact ⟨[], by simpa using h2⟩
      | validation => exact ⟨[], by simpa using h2⟩
      | api => exact ⟨[], by simpa using h2⟩

theorem foldl_fun_eq {M P : Type} (f g : M → P → M) (h : ∀ m p, f m p = g m p)
    (l : List P) (m0 : M) : l.foldl f m0 = l.foldl g m0 := by
  have hfg : f = g := funext (fun m => funext (h m))
  rw [hfg]

/-! ### Claim theorems -/

/-- C5: for every detail-information document, the flattened record
produced by `get_device_information` reads back, at every key, the
value of the last pair emitted by the document-order flatten walk — a
walk in which a leaf child with non-empty text emits its tag→text pair
and a child without such text but with children emits its
grandchildren's tag→text pairs directly at top level, later writes
overwriting earlier ones. -/
theorem C5_flatten_last_write_wins (root : XML) (q : String) :
    lookupD (getDeviceInformationParse root) q = lastWins (deviceInfoPairs root) q := by
  unfold getDeviceInformationParse deviceInfoPairs
  cases hfd : root.findDesc "Device_Information" with
  | none => rfl
  | some di =>
    have hsteps : di.children.foldl deviceInfoStep []
        = ((di.children.map childPairs).flatten).foldl (fun m p => upsert m p.1 p.2) [] := by
      rw [foldl_flatten, List.foldl_map]
      exact foldl_fun_eq _ _ (fun m child => deviceInfoStep_eq_childPairs m child) _ _
    dsimp only
    rw [hsteps, lookupD_foldl_upsert]
    cases lastWins ((di.children.map childPairs).flatten) q <;> rfl

/-- C6: for every summary document, the record produced by
`get_summary` reads back, at every key, the last typed value emitted
by the document-order walk over the `summary` element's children,
where a child with non-empty text emits a scalar string and a child
without such text but with sub-elements emits the ordered list of one
flat tag→text mapping per sub-element (never flattened into the top
level). -/
theorem C6_summary_typed_values (root : XML) (q : String) :
    lookupD (getSummaryParse root) q = lastWins (summaryPairs root) q := by
  unfold getSummaryParse summaryPairs
  cases hfd : root.findDesc "summary" with
  | none => rfl
  | some se =>
    have hsteps : se.children.foldl summaryStep []
        = (se.children.filterMap summaryPair).foldl (fun m p => upsert m p.1 p.2) [] := by
      rw [foldl_fun_eq summaryStep
        (fun s child => match summaryPair child with
          | some p => upsert s p.1 p.2
          | none => s)
        (fun s child => summaryStep_eq_summaryPair s child)]
      generalize ([] : List (String × SumVal)) = m0
      induction se.children generalizing m0 with
      | nil => rfl
      | cons child tl ih =>
        cases hc : summaryPair child <;>
          simp only [List.foldl_cons, List.filterMap_cons, hc, ih]
    dsimp only
    rw [hsteps, lookupD_foldl_upsert]
    cases lastWins (se.children.filterMap summaryPair) q <;> rfl

/-! ### Pipeline step lemmas -/

theorem respStatus_of_code (resp : XML) (c : Int) (h : statusCodeOf resp = some c) :
    respStatus resp = classifyCode c := by
  unfold respStatus
  rw [h]

theorem requestStep_passOk (key : Option String) (resp : XML)
    (h : respStatus resp = .passOk) :
    requestStep key resp = (key, false, .ok resp) := by
  unfold requestStep
  rw [h]

theorem requestStep_passWarn (key : Option String) (resp : XML)
    (h : respStatus resp = .passWarn) :
    requestStep key resp = (key, true, .ok resp) := by
  unfold requestStep
  rw [h]

theorem requestStep_auth (key : Option String) (resp : XML) (b : Bool)
    (h : respStatus resp = .raiseAuth b) :
    requestStep key resp = (if b then none else key, false, .error .auth) := by
  unfold requestStep
  rw [h]

theorem requestStep_device (key : Option String) (resp : XML)
    (h : respStatus resp = .raiseDevice) :
    requestStep key resp = (key, false, .error .device) := by
  unfold requestStep
  rw [h]

theorem requestStep_rateLimit (key : Option String) (resp : XML)
    (h : respStatus resp = .raiseRateLimit) :
    requestStep key resp = (key, false, .error .rateLimit) := by
  unfold requestStep
  rw [h]

theorem doRequest_cons (k : Option String) (resp : XML) (rest : List XML)
    (s : List SentReq) (w : Bool) (req : SentReq) :
    doRequest ⟨k, resp :: rest, s, w⟩ req
      = (⟨(requestStep k resp).1, rest, s ++ [req], w || (requestStep k resp).2.1⟩,
        (requestStep k resp).2.2) := by
  unfold doRequest
  rcases h : requestStep k resp with ⟨k2, w2, res⟩
  simp [h]

theorem ensureConnected_truthy (rs : RunState) (h : textTruthy rs.key = true) :
    ensureConnected rs = (rs, .ok ()) := by
  unfold ensureConnected
  rw [h]
  simp

theorem textTruthy_some (k : String) (h : k ≠ "") : textTruthy (some k) = true := by
  simp [textTruthy, h]

/-- A connected client whose next scripted response classifies as a
pass (no diagnostic) returns that response after one request. -/
theorem runAuthedOp_pass (mkR : Option String → SentReq) (key0 : String)
    (resp : XML) (rest : List XML) (s0 : List SentReq) (w0 : Bool)
    (hk : key0 ≠ "") (h : respStatus resp = .passOk) :
    runAuthedOp mkR ⟨some key0, resp :: rest, s0, w0⟩
      = (⟨some key0, rest, s0 ++ [mkR (some key0)], w0⟩, .ok resp) := by
  unfold runAuthedOp
  rw [ensureConnected_truthy _ (textTruthy_some key0 hk)]
  simp only [doRequest_cons, requestStep_passOk _ _ h, Bool.or_false]

/-- A connected client whose next scripted response classifies as a
Device error propagates it with no retry. -/
theorem runAuthedOp_device (mkR : Option String → SentReq) (key0 : String)
    (resp : XML) (rest : List XML) (s0 : List SentReq) (w0 : Bool)
    (hk : key0 ≠ "") (h : respStatus resp = .raiseDevice) :
    runAuthedOp mkR ⟨some key0, resp :: rest, s0, w0⟩
      = (⟨some key0, rest, s0 ++ [mkR (some key0)], w0⟩, .error .device) := by
  unfold runAuthedOp
  rw [ensureConnected_truthy _ (textTruthy_some key0 hk)]
  simp only [doRequest_cons, requestStep_device _ _ h, Bool.or_false]

/-- A successful `connect` against a scripted pass response carrying a
truthy `key` text replaces the session key. -/
theorem connectOp_cons_ok (k : Option String) (ck : XML) (rest : List XML)
    (s : List SentReq) (w : Bool) (ke : XML) (k2 : String)
    (hck : respStatus ck = .passOk) (hke : ck.findDesc "key" = some ke)
    (hket : ke.text = some k2) (hk2 : ¬(k2 = "")) :
    connectOp ⟨k, ck :: rest, s, w⟩ = (⟨some k2, rest, s ++ [connectReq], w⟩, .ok k2) := by
  unfold connectOp
  simp only [doRequest_cons, requestStep_passOk _ _ hck, Bool.or_false, hke, hket,
    if_neg hk2]

/-- A connected client whose next scripted response classifies as a
Rate-limit error propagates it with no retry. -/
theorem runAuthedOp_rateLimit (mkR : Option String → SentReq) (key0 : String)
    (resp : XML) (rest : List XML) (s0 : List SentReq) (w0 : Bool)
    (hk : key0 ≠ "") (h : respStatus resp = .raiseRateLimit) :
    runAuthedOp mkR ⟨some key0, resp :: rest, s0, w0⟩
      = (⟨some key0, rest, s0 ++ [mkR (some key0)], w0⟩, .error .rateLimit) := by
  unfold runAuthedOp
  rw [ensureConnected_truthy _ (textTruthy_some key0 hk)]
  simp only [doRequest_cons, requestStep_rateLimit _ _ h, Bool.or_false]

/-- Issuing a request against an exhausted script is a transport
failure, classified as a Connection error. -/
theorem doRequest_nil (k : Option String) (s : List SentReq) (w : Bool)
    (req : SentReq) :
    doRequest ⟨k, [], s, w⟩ req = (⟨k, [], s ++ [req], w⟩, .error .connection) :=
  rfl

/-- A connected client whose first scripted response classifies as an
Authentication error performs exactly one fresh `connect` (consuming
the next response, which grants key `k2`) and then re-issues the
request built from the replaced key against the remaining script. -/
theorem runAuthedOp_auth_step (mkR : Option String → SentReq) (key0 k2 : String)
    (r1 ck : XML) (rest : List XML) (s0 : List SentReq) (w0 : Bool) (b1 : Bool)
    (ke : XML) (hk : key0 ≠ "") (h1 : respStatus r1 = .raiseAuth b1)
    (hck : respStatus ck = .passOk) (hke : ck.findDesc "key" = some ke)
    (hket : ke.text = some k2) (hk2 : k2 ≠ "") :
    runAuthedOp mkR ⟨some key0, r1 :: ck :: rest, s0, w0⟩
      = doRequest ⟨some k2, rest, s0 ++ [mkR (some key0), connectReq], w0⟩
          (mkR (some k2)) := by
  unfold runAuthedOp
  rw [ensureConnected_truthy _ (textTruthy_some key0 hk)]
  simp only [doRequest_cons, requestStep_auth _ _ _ h1, Bool.or_false]
  rw [connectOp_cons_ok _ ck rest _ w0 ke k2 hck hke hket hk2]
  dsimp only
  rw [List.append_assoc]
  rfl

/-! ### Rate limiting (C9) -/

/-- C9: consecutive requests are separated by at least 1.0 time-unit —
the new recorded last-request time (the instant the next request
begins) is at least one unit after the previously recorded one,
whatever the clock reads on entry, however long the sleep overshoots,
and however long the re-read is delayed. -/
theorem C9_rate_limit_floor (last now sleepSlack readDelay : ℚ)
    (h1 : 0 ≤ sleepSlack) (h2 : 0 ≤ readDelay) :
    last + 1 ≤ enforceRateLimit last now sleepSlack readDelay := by
  unfold enforceRateLimit
  split_ifs with h
  · linarith
  · have := not_lt.mp h
    linarith

theorem C9_witness :
    (0 ≤ (0:ℚ) ∧ 0 ≤ (0:ℚ)) ∧ (0:ℚ) + 1 ≤ enforceRateLimit 0 (1/2) 0 0 :=
  ⟨⟨le_refl 0, le_refl 0⟩, C9_rate_limit_floor 0 (1/2) 0 0 (le_refl 0) (le_refl 0)⟩

/-! ### Code 23 in the shared pipeline (C10) -/

/-- C10: the shared request pipeline treats status code 23 as a
non-error for every operation — the exchange returns the document with
the state unchanged and, unlike genuinely unrecognized codes (which
return normally but log a warning), no warning; e.g. `set_function`
receiving a code-23 response completes normally. -/
theorem C10_code23_nonerror_all_ops :
    (∀ (key : Option String) (resp : XML), statusCodeOf resp = some 23 →
      requestStep key resp = (key, false, .ok resp))
    ∧ (∀ (key : Option String) (resp : XML) (c : Int), statusCodeOf resp = some c →
      c ∉ ([1, 2, 3, 4, 5, 6, 8, 11, 13, 14, 23] : List Int) →
      requestStep key resp = (key, true, .ok resp))
    ∧ (∀ (d key0 : String) (resp : XML) (rest : List XML) (s0 : List SentReq)
        (w0 : Bool), key0 ≠ "" → statusCodeOf resp = some 23 →
      setFunction d 1 ⟨some key0, resp :: rest, s0, w0⟩
        = (⟨some key0, rest, s0 ++ [setFunctionData d (some key0) 1], w0⟩, .ok ())) := by
  refine ⟨?_, ?_, ?_⟩
  · intro key resp h
    exact requestStep_passOk key resp
      (by rw [respStatus_of_code resp 23 h]; decide)
  · intro key resp c h hmem
    simp only [List.mem_cons, List.not_mem_nil, or_false, not_or] at hmem
    obtain ⟨n1, n2, n3, n4, n5, n6, n8, n11, n13, n14, n23⟩ := hmem
    refine requestStep_passWarn key resp ?_
    rw [respStatus_of_code resp c h]
    unfold classifyCode
    simp [n1, n2, n3, n4, n5, n6, n8, n11, n13, n14, n23]
  · intro d key0 resp rest s0 w0 hk h
    have hpass : respStatus resp = .passOk := by
      rw [respStatus_of_code resp 23 h]; decide
    have hv : validFunction 1 := Or.inl rfl
    unfold setFunction
    rw [if_neg (not_not_intro hv),
      runAuthedOp_pass (fun k => setFunctionData d k 1) key0 resp rest s0 w0 hk hpass]
    rfl

theorem C10_witness :
    (statusCodeOf (statusDoc "23") = some 23
      ∧ requestStep (some "K") (statusDoc "23") = (some "K", false, .ok (statusDoc "23")))
    ∧ (statusCodeOf (statusDoc "99") = some 99
      ∧ requestStep (some "K") (statusDoc "99") = (some "K", true, .ok (statusDoc "99")))
    ∧ setFunction "D1" 1 ⟨some "K", [statusDoc "23"], [], false⟩
        = (⟨some "K", [], [setFunctionData "D1" (some "K") 1], false⟩, .ok ()) := by
  refine ⟨⟨by decide, ?_⟩, ⟨by decide, ?_⟩, ?_⟩
  · exact C10_code23_nonerror_all_ops.1 (some "K") (statusDoc "23") (by decide)
  · exact C10_code23_nonerror_all_ops.2.1 (some "K") (statusDoc "99") 99 (by decide)
      (by decide)
  · exact C10_code23_nonerror_all_ops.2.2 "D1" "K" (statusDoc "23") [] [] false
      (by decide) (by decide)

/-! ### `get_log` and code 23 (C7) -/

/-- C7: a log response carrying status code 23 ("no log data") makes
`get_log` return the empty sequence with no error raised. -/
theorem C7_get_log_empty_on_23 (d key0 : String) (resp : XML) (rest : List XML)
    (s0 : List SentReq) (w0 : Bool) (hk : key0 ≠ "")
    (h1 : statusCodeOf resp = some 23) (h2 : statusCodePath resp = some 23) :
    getLog d ⟨some key0, resp :: rest, s0, w0⟩
      = (⟨some key0, rest, s0 ++ [getLogReq d (some key0)], w0⟩, .ok []) := by
  have hpass : respStatus resp = .passOk := by
    rw [respStatus_of_code resp 23 h1]; decide
  unfold getLog
  rw [runAuthedOp_pass (getLogReq d) key0 resp rest s0 w0 hk hpass]
  simp [h2]

theorem C7_witness :
    ("K" ≠ "" ∧ statusCodeOf (statusDoc "23") = some 23
      ∧ statusCodePath (statusDoc "23") = some 23)
    ∧ getLog "D1" ⟨some "K", [statusDoc "23"], [], false⟩
        = (⟨some "K", [], [getLogReq "D1" (some "K")], false⟩, .ok []) :=
  ⟨⟨by decide, by decide, by decide⟩,
    C7_get_log_empty_on_23 "D1" "K" (statusDoc "23") [] [] false (by decide)
      (by decide) (by decide)⟩

/-! ### `get_summary` and Device errors (C2) -/

/-- C2, counterexample to the claim as stated: a connected client whose
`get_summary` response carries status code 4 (gateway not connected,
classified as a Device error) receives the propagated Device error, not
the empty mapping the claim promises. -/
theorem C2_counterexample :
    (getSummary ⟨some "K", [statusDoc "4"], [], false⟩).2 = .error .device := by
  decide

/-- C2, amended: `get_summary` propagates Device-error responses to
the caller instead of returning an empty mapping — Device, Rate-limit
and Connection (transport) errors all propagate, and only an
Authentication error on the first request triggers the single
reconnect-and-retry, after which whatever the retry classifies as (a
Device error, a second Authentication error, ...) propagates
unmodified.  A no-error response returns the parsed summary record; in
particular a response with no `summary` element parses to the empty
mapping. -/
theorem C2_get_summary_amended (key0 : String) (resp : XML) (rest : List XML)
    (s0 : List SentReq) (w0 : Bool) (hk : key0 ≠ "") :
    (respStatus resp = .raiseDevice →
      getSummary ⟨some key0, resp :: rest, s0, w0⟩
        = (⟨some key0, rest, s0 ++ [getSummaryReq (some key0)], w0⟩, .error .device))
    ∧ (respStatus resp = .raiseRateLimit →
      getSummary ⟨some key0, resp :: rest, s0, w0⟩
        = (⟨some key0, rest, s0 ++ [getSummaryReq (some key0)], w0⟩,
          .error .rateLimit))
    ∧ getSummary ⟨some key0, [], s0, w0⟩
        = (⟨some key0, [], s0 ++ [getSummaryReq (some key0)], w0⟩,
          .error .connection)
    ∧ (∀ (b1 : Bool) (ck ke r3 : XML) (k2 : String) (rest2 : List XML),
        respStatus resp = .raiseAuth b1 → respStatus ck = .passOk →
        ck.findDesc "key" = some ke → ke.text = some k2 → k2 ≠ "" →
        (respStatus r3 = .raiseDevice →
          getSummary ⟨some key0, resp :: ck :: r3 :: rest2, s0, w0⟩
            = (⟨some k2, rest2,
                s0 ++ [getSummaryReq (some key0), connectReq,
                  getSummaryReq (some k2)], w0⟩, .error .device))
        ∧ (∀ b3, respStatus r3 = .raiseAuth b3 →
          getSummary ⟨some key0, resp :: ck :: r3 :: rest2, s0, w0⟩
            = (⟨if b3 then none else some k2, rest2,
                s0 ++ [getSummaryReq (some key0), connectReq,
                  getSummaryReq (some k2)], w0⟩, .error .auth)))
    ∧ (respStatus resp = .passOk →
      getSummary ⟨some key0, resp :: rest, s0, w0⟩
        = (⟨some key0, rest, s0 ++ [getSummaryReq (some key0)], w0⟩,
          .ok (getSummaryParse resp)))
    ∧ (resp.findDesc "summary" = none → getSummaryParse resp = []) := by
  refine ⟨?_, ?_, ?_, ?_, ?_, ?_⟩
  · intro h
    unfold getSummary
    rw [runAuthedOp_device getSummaryReq key0 resp rest s0 w0 hk h]
    rfl
  · intro h
    unfold getSummary
    rw [runAuthedOp_rateLimit getSummaryReq key0 resp rest s0 w0 hk h]
    rfl
  · unfold getSummary runAuthedOp
    rw [ensureConnected_truthy _ (textTruthy_some key0 hk)]
    dsimp only
    rw [doRequest_nil]
    rfl
  · intro b1 ck ke r3 k2 rest2 hb1 hck hke hket hk2
    have hmain := runAuthedOp_auth_step getSummaryReq key0 k2 resp ck
      (r3 :: rest2) s0 w0 b1 ke hk hb1 hck hke hket hk2
    constructor
    · intro h3
      unfold getSummary
      rw [hmain, doRequest_cons]
      simp [requestStep_device _ _ h3, List.append_assoc, Except.map]
    · intro b3 h3
      unfold getSummary
      rw [hmain, doRequest_cons]
      simp [requestStep_auth _ _ _ h3, List.append_assoc, Except.map]
  · intro h
    unfold getSummary
    rw [runAuthedOp_pass getSummaryReq key0 resp rest s0 w0 hk h]
    rfl
  · intro hs
    simp [getSummaryParse, hs]

theorem C2_witness :
    ("K" ≠ "" ∧ respStatus (statusDoc "4") = .raiseDevice)
    ∧ getSummary ⟨some "K", [statusDoc "4"], [], false⟩
        = (⟨some "K", [], [getSummaryReq (some "K")], false⟩, .error .device) :=
  ⟨⟨by decide, by decide⟩,
    (C2_get_summary_amended "K" (statusDoc "4") [] [] false (by decide)).1 (by decide)⟩

/-! ### `check_connection` (C8) -/

/-- C8, counterexample to the claim as stated: a status code 11
response (rate limit) is "any other code" yet makes `check_connection`
propagate a Rate-limit error instead of returning `false`. -/
theorem C8_counterexample :
    (checkConnection "D1" ⟨some "K", [statusDoc "11"], [], false⟩).2
      = .error .rateLimit := by
  decide

/-- C8, amended: `check_connection` returns `true` exactly when the
response's `.//status/code` equals 13; any other code the pipeline does
not raise on, or a missing status, yields `false`; Authentication and
Device errors raised during the request also yield `false`; Rate-limit
errors (and Connection errors) propagate. -/
theorem C8_check_connection_amended (d key0 : String) (resp : XML)
    (rest : List XML) (s0 : List SentReq) (w0 : Bool) (hk : key0 ≠ "") :
    ((respStatus resp = .passOk ∨ respStatus resp = .passWarn) →
      (checkConnection d ⟨some key0, resp :: rest, s0, w0⟩).2
        = .ok (statusCodePath resp == some 13))
    ∧ (∀ b, respStatus resp = .raiseAuth b →
      (checkConnection d ⟨some key0, resp :: rest, s0, w0⟩).2 = .ok false)
    ∧ (respStatus resp = .raiseDevice →
      (checkConnection d ⟨some key0, resp :: rest, s0, w0⟩).2 = .ok false)
    ∧ (respStatus resp = .raiseRateLimit →
      (checkConnection d ⟨some key0, resp :: rest, s0, w0⟩).2 = .error .rateLimit) := by
  have hmatch : (match statusCodePath resp with
      | some code => code == (13 : Int)
      | none => false) = (statusCodePath resp == some 13) := by
    cases statusCodePath resp <;> rfl
  refine ⟨?_, ?_, ?_, ?_⟩
  · rintro (h | h) <;>
    · unfold checkConnection
      rw [ensureConnected_truthy _ (textTruthy_some key0 hk)]
      first
        | simp only [doRequest_cons, requestStep_passOk _ _ h, hmatch]
        | simp only [doRequest_cons, requestStep_passWarn _ _ h, hmatch]
  · intro b h
    unfold checkConnection
    rw [ensureConnected_truthy _ (textTruthy_some key0 hk)]
    simp only [doRequest_cons, requestStep_auth _ _ _ h]
  · intro h
    unfold checkConnection
    rw [ensureConnected_truthy _ (textTruthy_some key0 hk)]
    simp only [doRequest_cons, requestStep_device _ _ h]
  · intro h
    unfold checkConnection
    rw [ensureConnected_truthy _ (textTruthy_some key0 hk)]
    simp only [doRequest_cons, requestStep_rateLimit _ _ h]

theorem C8_witness :
    ("K" ≠ "" ∧ respStatus (statusDoc "13") = .passOk
      ∧ (statusCodePath (statusDoc "13") == some 13) = true)
    ∧ (checkConnection "D1" ⟨some "K", [statusDoc "13"], [], false⟩).2
        = .ok (statusCodePath (statusDoc "13") == some 13) :=
  ⟨⟨by decide, by decide, by decide⟩,
    (C8_check_connection_amended "D1" "K" (statusDoc "13") [] [] false
      (by decide)).1 (Or.inl (by decide))⟩

/-! ### Auth retry (C3) -/

/-- C3, counterexample to the claim as stated: `check_connection` is a
device operation whose first request here fails with an
Authentication-error classification (status code 3), yet the client
performs no fresh connect and no re-issue — exactly one request is
sent, the remaining two scripted responses stay unconsumed, and the
operation returns `false` (the session key is still cleared). -/
theorem C3_counterexample :
    (checkConnection "D1"
        ⟨some "K", [statusDoc "3", connectOkDoc, statusDoc "13"], [], false⟩).1.sent
      = [checkConnectionReq "D1" (some "K")]
    ∧ (checkConnection "D1"
        ⟨some "K", [statusDoc "3", connectOkDoc, statusDoc "13"], [], false⟩).1.script.length
      = 2
    ∧ (checkConnection "D1"
        ⟨some "K", [statusDoc "3", connectOkDoc, statusDoc "13"], [], false⟩).2
      = .ok false
    ∧ (checkConnection "D1"
        ⟨some "K", [statusDoc "3", connectOkDoc, statusDoc "13"], [], false⟩).1.key
      = none := by
  exact ⟨by decide, by decide, by decide, by decide⟩

/-- C3, amended: every operation built on the shared authenticated
skeleton (all device/control operations except `check_connection`,
which converts the error to `false` without retrying) reacts to an
Authentication-error classification of its first request by performing
exactly one fresh connect, re-issuing the request once with the
replaced session key, and propagating a second Authentication error
unmodified with nothing further sent or consumed; independently, any
response carrying status code 3 clears the stored session key at the
moment the error is raised. -/
theorem C3_auth_retry_amended (mkR : Option String → SentReq) (key0 k2 : String)
    (r1 ck r3 : XML) (rest : List XML) (s0 : List SentReq) (w0 : Bool)
    (b1 : Bool) (ke : XML) (hk : key0 ≠ "") (h1 : respStatus r1 = .raiseAuth b1)
    (hck : respStatus ck = .passOk) (hke : ck.findDesc "key" = some ke)
    (hket : ke.text = some k2) (hk2 : k2 ≠ "") :
    (∀ b3, respStatus r3 = .raiseAuth b3 →
      runAuthedOp mkR ⟨some key0, r1 :: ck :: r3 :: rest, s0, w0⟩
        = (⟨if b3 then none else some k2, rest,
            s0 ++ [mkR (some key0), connectReq, mkR (some k2)], w0⟩, .error .auth))
    ∧ (respStatus r3 = .passOk →
      runAuthedOp mkR ⟨some key0, r1 :: ck :: r3 :: rest, s0, w0⟩
        = (⟨some k2, rest, s0 ++ [mkR (some key0), connectReq, mkR (some k2)], w0⟩,
          .ok r3))
    ∧ (∀ (key : Option String) (resp : XML), statusCodeOf resp = some 3 →
      requestStep key resp = (none, false, .error .auth)) := by
  have hmain := runAuthedOp_auth_step mkR key0 k2 r1 ck (r3 :: rest) s0 w0 b1 ke
    hk h1 hck hke hket hk2
  refine ⟨?_, ?_, ?_⟩
  · intro b3 h3
    rw [hmain, doRequest_cons]
    simp [requestStep_auth _ _ _ h3, List.append_assoc]
  · intro h3
    rw [hmain, doRequest_cons]
    simp [requestStep_passOk _ _ h3, List.append_assoc]
  · intro key resp h
    have hcl : respStatus resp = .raiseAuth true := by
      rw [respStatus_of_code resp 3 h]; decide
    rw [requestStep_auth key resp true hcl]
    simp

theorem C3_witness :
    ("K" ≠ "" ∧ respStatus (statusDoc "3") = .raiseAuth true
      ∧ respStatus connectOkDoc = .passOk
      ∧ connectOkDoc.findDesc "key" = some (xmlE "key" (some "K2") [])
      ∧ (xmlE "key" (some "K2") []).text = some "K2" ∧ "K2" ≠ ""
      ∧ respStatus (statusDoc "1") = .raiseAuth false)
    ∧ runAuthedOp getDevicesReq
        ⟨some "K", [statusDoc "3", connectOkDoc, statusDoc "1"], [], false⟩
      = (⟨some "K2", [],
          [getDevicesReq (some "K"), connectReq, getDevicesReq (some "K2")], false⟩,
        .error .auth) := by
  refine ⟨⟨by decide, by decide, by decide, by rfl, by rfl, by decide, by decide⟩, ?_⟩
  have h := (C3_auth_retry_amended getDevicesReq "K" "K2" (statusDoc "3")
    connectOkDoc (statusDoc "1") [] [] false true (xmlE "key" (some "K2") [])
    (by decide) (by decide) (by decide) (by rfl) (by rfl) (by decide)).1
    false (by decide)
  simpa using h

/-! ### Temperature rounding (C1) -/

/-- C1, counterexample to the claim as stated: at t = 10.25 the code
transmits `"10.0"` (Python `round` is round-half-to-even:
`round(20.5) = 20`), while rounding to the nearest 0.5 with ties away
from zero gives 10.5, i.e. the string `"10.5"`. -/
theorem C1_counterexample :
    (setTemperatureData "D1" (some "K") (41/4)).value = some "10.0"
    ∧ roundAwayToHalf (41/4) = 21/2
    ∧ formatHalf (21/2) = "10.5" := by
  refine ⟨?_, ?_, ?_⟩
  · show some (formatHalf (roundToHalf (41/4))) = some "10.0"
    have hr : roundToHalf (41/4 : ℚ) = 10 := by
      norm_num [roundToHalf, pyRound]
    rw [hr]
    have hf : formatHalf (10 : ℚ) = "10.0" := by
      rw [formatHalf, if_pos (by norm_num)]
      norm_num
      decide
    rw [hf]
  · norm_num [roundAwayToHalf, roundHalfAway]
  · rw [formatHalf, if_neg (by norm_num)]
    norm_num
    decide

/-- C1, amended: for every temperature t with 10 ≤ t ≤ 30, both
`set_temperature` and the temperature field of `set_program_time`
transmit (as the `value` parameter) the decimal rendering of a single
value v that is a multiple of 0.5 within 0.25 of t, and at a tie
(t exactly midway between two multiples of 0.5) v is the whole-degree
endpoint — i.e. ties go to the even multiple of 0.5 (banker's
rounding), not away from zero. -/
theorem C1_rounding_ties_to_even (t : ℚ) (h1 : 10 ≤ t) (h2 : t ≤ 30) :
    ∃ v : ℚ,
      (∀ (d : String) (k : Option String),
        (setTemperatureData d k t).value = some (formatHalf v))
      ∧ (∀ (d : String) (k : Option String) (program day period : ℤ) (ts : String),
        (setProgramTimeData d k program day period ts t).value
          = some (toString program ++ "," ++ toString day ++ "," ++ toString period
              ++ "," ++ ts ++ "," ++ formatHalf v))
      ∧ (∀ (d : String) (rs : RunState), textTruthy rs.key = true →
        ∃ extra, (setTemperature d t rs).1.sent
          = rs.sent ++ setTemperatureData d rs.key t :: extra)
      ∧ (∃ n : ℤ, v = (n : ℚ) / 2)
      ∧ |t - v| ≤ 1/4
      ∧ (|t - v| = 1/4 → ∃ n : ℤ, v = (n : ℚ)) := by
  refine ⟨roundToHalf t, fun d k => rfl, fun d k p dy pe ts => rfl, ?_,
    roundToHalf_as_half t, roundToHalf_close t, roundToHalf_tie_int t⟩
  intro d rs htt
  obtain ⟨extra, hx⟩ := runAuthedOp_sent_head (fun k => setTemperatureData d k t) rs htt
  refine ⟨extra, ?_⟩
  unfold setTemperature
  rw [if_neg (not_not_intro ⟨h1, h2⟩)]
  cases hro : runAuthedOp (fun k => setTemperatureData d k t) rs with
  | mk rs1 r =>
    rw [hro] at hx
    simpa using hx

theorem C1_witness :
    (10 ≤ (41/4 : ℚ) ∧ (41/4 : ℚ) ≤ 30)
    ∧ ∃ v : ℚ,
      (∀ (d : String) (k : Option String),
        (setTemperatureData d k (41/4)).value = some (formatHalf v))
      ∧ (∀ (d : String) (k : Option String) (program day period : ℤ) (ts : String),
        (setProgramTimeData d k program day period ts (41/4)).value
          = some (toString program ++ "," ++ toString day ++ "," ++ toString period
              ++ "," ++ ts ++ "," ++ formatHalf v))
      ∧ (∀ (d : String) (rs : RunState), textTruthy rs.key = true →
        ∃ extra, (setTemperature d (41/4) rs).1.sent
          = rs.sent ++ setTemperatureData d rs.key (41/4) :: extra)
      ∧ (∃ n : ℤ, v = (n : ℚ) / 2)
      ∧ |(41/4 : ℚ) - v| ≤ 1/4
      ∧ (|(41/4 : ℚ) - v| = 1/4 → ∃ n : ℤ, v = (n : ℚ)) :=
  ⟨⟨by norm_num, by norm_num⟩,
    C1_rounding_ties_to_even (41/4) (by norm_num) (by norm_num)⟩

/-! ### Local validation (C4) -/

/-- C4: out-of-range temperatures and function codes outside {1..6}
fail synchronously with a validation error, leaving the client state
untouched (no connect, no request, nothing consumed from the network);
for codes in {1..6}, `set_function` transmits the code as its decimal
string in the `value` parameter, and a connected client's first sent
request is exactly that payload. -/
theorem C4_validation_local :
    (∀ (d : String) (t : ℚ) (rs : RunState), ¬(10 ≤ t ∧ t ≤ 30) →
      setTemperature d t rs = (rs, .error .validation))
    ∧ (∀ (d : String) (f : ℤ) (rs : RunState), ¬validFunction f →
      setFunction d f rs = (rs, .error .validation))
    ∧ (∀ (d : String) (f : ℤ) (k : Option String),
      (setFunctionData d k f).value = some (toString f))
    ∧ (∀ (d : String) (f : ℤ) (rs : RunState), validFunction f →
      textTruthy rs.key = true →
      ∃ extra, (setFunction d f rs).1.sent
        = rs.sent ++ setFunctionData d rs.key f :: extra) := by
  refine ⟨?_, ?_, fun d f k => rfl, ?_⟩
  · intro d t rs h
    unfold setTemperature
    rw [if_pos h]
  · intro d f rs h
    unfold setFunction
    rw [if_pos h]
  · intro d f rs hv htt
    obtain ⟨extra, hx⟩ := runAuthedOp_sent_head (fun k => setFunctionData d k f) rs htt
    refine ⟨extra, ?_⟩
    unfold setFunction
    rw [if_neg (not_not_intro hv)]
    cases hro : runAuthedOp (fun k => setFunctionData d k f) rs with
    | mk rs1 r =>
      rw [hro] at hx
      simpa using hx

theorem C4_witness :
    (¬(10 ≤ (35:ℚ) ∧ (35:ℚ) ≤ 30)
      ∧ setTemperature "D1" 35 ⟨some "K", [statusDoc "13"], [], false⟩
          = (⟨some "K", [statusDoc "13"], [], false⟩, .error .validation))
    ∧ (¬validFunction 7
      ∧ setFunction "D1" 7 ⟨some "K", [statusDoc "13"], [], false⟩
          = (⟨some "K", [statusDoc "13"], [], false⟩, .error .validation))
    ∧ (setFunctionData "D1" (some "K") 6).value = some "6"
    ∧ (validFunction 6 ∧ textTruthy (some "K") = true
      ∧ ∃ extra, (setFunction "D1" 6 ⟨some "K", [statusDoc "14"], [], false⟩).1.sent
          = [] ++ setFunctionData "D1" (some "K") 6 :: extra) :=
  ⟨⟨by norm_num, C4_validation_local.1 "D1" 35 _ (by norm_num)⟩,
    ⟨by decide, C4_validation_local.2.1 "D1" 7 _ (by decide)⟩,
    C4_validation_local.2.2.1 "D1" 6 (some "K"),
    ⟨by decide, by decide,
      C4_validation_local.2.2.2 "D1" 6 ⟨some "K", [statusDoc "14"], [], false⟩
        (by decide) (by decide)⟩⟩

end Inspire
